import Mathlib

/-!
Verification of `scripts/pcloud/pcloud_sync.py`, a WebDAV sync client.

The Python script is shallowly embedded: network responses become explicit
response oracles (one response per retry attempt), the local filesystem
becomes a tree value, the remote state becomes a probe oracle, and each
side-effecting primitive returns, alongside its Python return value, a
record of the observable effects the Python code performs (attempts made,
sleeps, PUT/MKCOL calls).
-/

namespace PCloudSync

/-- Remote file metadata, the dictionary `{'size': ..., 'modified': ...}`
returned by `get_remote_file_info` on a 207 response.  `size` is `none`
when the content-length regex found no match, mirroring Python's `None`. -/
structure RemoteInfo where
  size : Option Nat
  modified : Option String
  deriving DecidableEq, Repr

/-- A local file as `should_upload_file` observes it: `local_file.stat().st_size`
is the only attribute consulted; the content is carried to make the
content-independence of the decision policy expressible. -/
structure LocalFile where
  name : String
  size : Nat
  content : List Nat
  deriving DecidableEq, Repr

/-! ## Regex searches of `get_remote_file_info`

`re.search(r'<lp1:getcontentlength>(\d+)</lp1:getcontentlength>', content)`
scans for the first position where the literal open tag is followed by a
nonempty digit run that is immediately followed by the literal close tag
(the greedy `\d+` can only match the maximal digit run, since the close tag
starts with a non-digit).  Likewise for `getlastmodified` with `[^<]+`. -/

/-- Digits-to-number, the effect of Python's `int()` on the matched group. -/
def digitsToNat (ds : List Char) : Nat :=
  ds.foldl (fun n c => n * 10 + (c.toNat - '0'.toNat)) 0

/-- `re.search` for a literal open tag, a nonempty greedy character class run,
and a literal close tag; returns the first matched group. -/
def searchTagged (openTag closeTag : List Char) (cls : Char → Bool) :
    List Char → Option (List Char)
  | [] => none
  | c :: rest =>
    if openTag.isPrefixOf (c :: rest) then
      let after := (c :: rest).drop openTag.length
      let grp := after.takeWhile cls
      let post := after.dropWhile cls
      if grp ≠ [] ∧ closeTag.isPrefixOf post then some grp
      else searchTagged openTag closeTag cls rest
    else searchTagged openTag closeTag cls rest

/-- The content-length match of `get_remote_file_info`, as a number. -/
def searchContentLength (content : List Char) : Option Nat :=
  (searchTagged "<lp1:getcontentlength>".data "</lp1:getcontentlength>".data
    (fun c => c.isDigit) content).map digitsToNat

/-- The last-modified match of `get_remote_file_info`. -/
def searchLastModified (content : List Char) : Option String :=
  (searchTagged "<lp1:getlastmodified>".data "</lp1:getlastmodified>".data
    (fun c => c ≠ '<') content).map List.asString

/-! ## `get_remote_file_info` -/

/-- The outcome of one PROPFIND attempt inside `get_remote_file_info`:
an HTTP response with its status code and body text, or a raised
transport exception. -/
inductive ProbeResp where
  | http (code : Nat) (body : String)
  | exn
  deriving DecidableEq, Repr

/-- The 207 branch of `get_remote_file_info`: both regex searches over the
response body, packed into the returned dictionary. -/
def parseProbeBody (body : String) : RemoteInfo :=
  { size := searchContentLength body.data
    modified := searchLastModified body.data }

/-- Result of `get_remote_file_info` together with its observable effects:
the Python return value, the number of PROPFIND requests issued, and the
list of `time.sleep` durations in order. -/
structure ProbeResult where
  info : Option RemoteInfo
  attempts : Nat
  sleeps : List Nat
  deriving DecidableEq, Repr

/-- The retry loop of `get_remote_file_info`.  `resp` gives the outcome of
each attempt (indexed from 0), `attempt` is the current loop index and
`remaining` the number of iterations `range(max_retries)` still has; the
source sleeps 1 second iff `attempt < max_retries - 1`, i.e. iff another
iteration remains. -/
def probeLoop (resp : Nat → ProbeResp) : Nat → Nat → ProbeResult
  | _, 0 => { info := none, attempts := 0, sleeps := [] }
  | attempt, remaining + 1 =>
    match resp attempt with
    | .http code body =>
      if code = 207 then
        { info := some (parseProbeBody body), attempts := 1, sleeps := [] }
      else if code = 404 then
        { info := none, attempts := 1, sleeps := [] }
      else
        let rest := probeLoop resp (attempt + 1) remaining
        { info := rest.info, attempts := 1 + rest.attempts
          sleeps := (if remaining ≥ 1 then [1] else []) ++ rest.sleeps }
    | .exn =>
      let rest := probeLoop resp (attempt + 1) remaining
      { info := rest.info, attempts := 1 + rest.attempts
        sleeps := (if remaining ≥ 1 then [1] else []) ++ rest.sleeps }

/-- `get_remote_file_info(session, base_url, remote_file, max_retries=3)`:
runs the retry loop from attempt 0; falling out of the loop returns `None`. -/
def get_remote_file_info (resp : Nat → ProbeResp) (max_retries : Nat := 3) :
    ProbeResult :=
  probeLoop resp 0 max_retries

/-! ## `should_upload_file` -/

/-- Python `f"{x}"` on an optional integer: `None` prints as `"None"`. -/
def optSizeStr : Option Nat → String
  | none => "None"
  | some n => toString n

/-- `should_upload_file(session, base_url, local_file, remote_file)`:
`remote_info` is the value `get_remote_file_info` returned for
`remote_file`.  Only `local_file.stat().st_size` is consulted — neither
the content (hash) nor any modification time enters the decision. -/
def should_upload_file (local_file : LocalFile) (remote_info : Option RemoteInfo) :
    Bool × String :=
  match remote_info with
  | none => (true, "new file")
  | some info =>
    let local_size := local_file.size
    if info.size ≠ some local_size then
      (true, "size changed (" ++ optSizeStr info.size ++ " -> " ++
        toString local_size ++ ")")
    else
      (false, "unchanged")

/-! ## `list_webdav_directory`

The 207 branch splits the body on `<D:response` and, per block, extracts
the href via the regex `<D:href>([^<]+)</D:href>`, percent-decodes it, and
tests `<D:collection/>` for substring containment.  A block is embedded as
the result of that per-block extraction: the decoded href match (absent
when the regex fails, in which case the block is skipped) and the
collection flag. -/

/-- One `<D:response` block of the multi-status body, abstracted to its
decoded href regex match and whether `<D:collection/>` occurs in it. -/
structure ListBlock where
  href : Option String
  isCollection : Bool
  deriving DecidableEq, Repr

/-- The outcome of one PROPFIND attempt inside `list_webdav_directory`:
an HTTP response (its status code, and its body pre-split into blocks),
or a raised transport exception. -/
inductive ListResp where
  | http (code : Nat) (blocks : List ListBlock)
  | exn

/-- Python `s.rstrip('/')`: drop every trailing slash. -/
def rstripSlash (s : String) : String :=
  ((s.data.reverse.dropWhile (fun c => c = '/')).reverse).asString

/-- Python `s.split('/')[-1]`, total because `split` never yields an
empty list. -/
def lastSegment (s : String) : String :=
  (s.splitOn "/").getLastD ""

/-- Python `s.endswith('/')`. -/
def endsWithSlash (s : String) : Bool :=
  s.data.reverse.head? = some '/'

/-- The per-block loop of `list_webdav_directory`'s 207 branch: skip
blocks without an href match, skip the queried directory itself,
collections contribute a directory name (last segment after stripping
trailing slashes, dropped when empty), other entries contribute a file
name (last segment, dropped when empty or slash-terminated). -/
def parseListBlocks (remote_path : String) : List ListBlock → List String × List String
  | [] => ([], [])
  | b :: rest =>
    match b.href with
    | none => parseListBlocks remote_path rest
    | some decoded_href =>
      if decoded_href = remote_path ∨ decoded_href = remote_path ++ "/" then
        parseListBlocks remote_path rest
      else if b.isCollection then
        let dir_name := lastSegment (rstripSlash decoded_href)
        let (fs, ds) := parseListBlocks remote_path rest
        if dir_name ≠ "" then (fs, dir_name :: ds) else (fs, ds)
      else
        let filename := lastSegment decoded_href
        let (fs, ds) := parseListBlocks remote_path rest
        if filename ≠ "" ∧ ¬ endsWithSlash filename then (filename :: fs, ds)
        else (fs, ds)

/-- Result of `list_webdav_directory` with its observable effects. -/
structure ListResult where
  files : List String
  directories : List String
  attempts : Nat
  sleeps : List Nat

/-- The retry loop of `list_webdav_directory`: 207 parses and returns,
anything else (including an exception) sleeps 2 seconds unless this was
the last iteration, then retries. -/
def listLoop (resp : Nat → ListResp) (remote_path : String) :
    Nat → Nat → ListResult
  | _, 0 => { files := [], directories := [], attempts := 0, sleeps := [] }
  | attempt, remaining + 1 =>
    match resp attempt with
    | .http code blocks =>
      if code = 207 then
        let (fs, ds) := parseListBlocks remote_path blocks
        { files := fs, directories := ds, attempts := 1, sleeps := [] }
      else
        let rest := listLoop resp remote_path (attempt + 1) remaining
        { files := rest.files, directories := rest.directories
          attempts := 1 + rest.attempts
          sleeps := (if remaining ≥ 1 then [2] else []) ++ rest.sleeps }
    | .exn =>
      let rest := listLoop resp remote_path (attempt + 1) remaining
      { files := rest.files, directories := rest.directories
        attempts := 1 + rest.attempts
        sleeps := (if remaining ≥ 1 then [2] else []) ++ rest.sleeps }

/-- `list_webdav_directory(session, base_url, remote_path, max_retries=3)`:
falling out of the loop returns `[], []`. -/
def list_webdav_directory (resp : Nat → ListResp) (remote_path : String)
    (max_retries : Nat := 3) : ListResult :=
  listLoop resp remote_path 0 max_retries

/-! ## `download_webdav_file` -/

/-- The outcome of one GET attempt inside `download_webdav_file`: an HTTP
response with its status code and body bytes, or a raised exception.
(The `content-length` header only feeds a progress print and is omitted.) -/
inductive DownloadResp where
  | http (code : Nat) (content : List Nat)
  | exn

/-- Result of `download_webdav_file` with its observable effects:
the boolean return, the bytes written to the local file (if any),
GET attempts issued and sleeps performed. -/
structure DownloadResult where
  success : Bool
  written : Option (List Nat)
  attempts : Nat
  sleeps : List Nat

/-- The retry loop of `download_webdav_file`: status 200 writes the whole
body to the local file and returns `True`; anything else sleeps 2 seconds
unless this was the last iteration, then retries. -/
def downloadLoop (resp : Nat → DownloadResp) : Nat → Nat → DownloadResult
  | _, 0 => { success := false, written := none, attempts := 0, sleeps := [] }
  | attempt, remaining + 1 =>
    match resp attempt with
    | .http code content =>
      if code = 200 then
        { success := true, written := some content, attempts := 1, sleeps := [] }
      else
        let rest := downloadLoop resp (attempt + 1) remaining
        { success := rest.success, written := rest.written
          attempts := 1 + rest.attempts
          sleeps := (if remaining ≥ 1 then [2] else []) ++ rest.sleeps }
    | .exn =>
      let rest := downloadLoop resp (attempt + 1) remaining
      { success := rest.success, written := rest.written
        attempts := 1 + rest.attempts
        sleeps := (if remaining ≥ 1 then [2] else []) ++ rest.sleeps }

/-- `download_webdav_file(session, base_url, remote_file, local_file,
max_retries=3)`: falling out of the loop returns `False`. -/
def download_webdav_file (resp : Nat → DownloadResp) (max_retries : Nat := 3) :
    DownloadResult :=
  downloadLoop resp 0 max_retries

/-! ## `upload_webdav_file` -/

/-- The outcome of one PUT attempt inside `upload_webdav_file`: an HTTP
status code, or a raised exception. -/
inductive UploadResp where
  | http (code : Nat)
  | exn

/-- Result of `upload_webdav_file` with its observable effects: the
boolean return, whether the preliminary MKCOL was issued (and on which
collection), PUT attempts issued and sleeps performed. -/
structure UploadResult where
  success : Bool
  mkcol : Option String
  attempts : Nat
  sleeps : List Nat

/-- Python `'/'.join(remote_file.split('/')[:-1])`. -/
def remoteDirOf (remote_file : String) : String :=
  String.intercalate "/" ((remote_file.splitOn "/").dropLast)

/-- The PUT retry loop of `upload_webdav_file`: a status in
`[200, 201, 204]` returns `True`; anything else sleeps 2 seconds unless
this was the last iteration, then retries. -/
def uploadLoop (resp : Nat → UploadResp) : Nat → Nat → (Bool × Nat × List Nat)
  | _, 0 => (false, 0, [])
  | attempt, remaining + 1 =>
    match resp attempt with
    | .http code =>
      if code = 200 ∨ code = 201 ∨ code = 204 then
        (true, 1, [])
      else
        let rest := uploadLoop resp (attempt + 1) remaining
        (rest.1, 1 + rest.2.1, (if remaining ≥ 1 then [2] else []) ++ rest.2.2)
    | .exn =>
      let rest := uploadLoop resp (attempt + 1) remaining
      (rest.1, 1 + rest.2.1, (if remaining ≥ 1 then [2] else []) ++ rest.2.2)

/-- `upload_webdav_file(session, base_url, local_file, remote_file,
max_retries=3)`: first a best-effort MKCOL on the parent collection
(issued only when the joined parent path is nonempty, its failure
swallowed), then the PUT retry loop; falling out of the loop returns
`False`. -/
def upload_webdav_file (resp : Nat → UploadResp) (remote_file : String)
    (max_retries : Nat := 3) : UploadResult :=
  let remote_dir := remoteDirOf remote_file
  let mk : Option String := if remote_dir ≠ "" then some remote_dir else none
  let rest := uploadLoop resp 0 max_retries
  { success := rest.1, mkcol := mk, attempts := rest.2.1, sleeps := rest.2.2 }

/-! ## `get_webdav_url` (path codec)

`urllib.parse.quote(path, safe='/')` percent-encodes, byte by byte over
the UTF-8 encoding, every byte outside ASCII letters, digits, `_.-~` and
the safe character `/`, using uppercase hex.  Since the never-quoted bytes
are all ASCII, the encoding factors through characters: each character's
UTF-8 bytes are escaped independently. -/

/-- The characters `urllib.parse.quote(·, safe='/')` leaves intact:
the always-safe set (ASCII alphanumerics and `_.-~`) plus `/`. -/
def quoteSafe (c : Char) : Bool :=
  ('A' ≤ c ∧ c ≤ 'Z') ∨ ('a' ≤ c ∧ c ≤ 'z') ∨ ('0' ≤ c ∧ c ≤ '9') ∨
    c = '_' ∨ c = '.' ∨ c = '-' ∨ c = '~' ∨ c = '/'

/-- Uppercase hex digit of a value below 16. -/
def hexDigit (n : Nat) : Char :=
  if n < 10 then Char.ofNat ('0'.toNat + n) else Char.ofNat ('A'.toNat + (n - 10))

/-- `%XX` escape of one byte. -/
def percentByte (b : Nat) : List Char :=
  ['%', hexDigit (b / 16), hexDigit (b % 16)]

/-- UTF-8 bytes of a code point. -/
def utf8Bytes (n : Nat) : List Nat :=
  if n < 0x80 then [n]
  else if n < 0x800 then [0xC0 + n / 0x40, 0x80 + n % 0x40]
  else if n < 0x10000 then
    [0xE0 + n / 0x1000, 0x80 + (n / 0x40) % 0x40, 0x80 + n % 0x40]
  else
    [0xF0 + n / 0x40000, 0x80 + (n / 0x1000) % 0x40,
      0x80 + (n / 0x40) % 0x40, 0x80 + n % 0x40]

/-- One character under `quote(·, safe='/')`: safe characters pass
through, all others become the percent escapes of their UTF-8 bytes. -/
def quoteChar (c : Char) : List Char :=
  if quoteSafe c then [c] else (utf8Bytes c.toNat).flatMap percentByte

/-- `urllib.parse.quote(s, safe='/')`. -/
def pyQuote (s : String) : String :=
  (s.data.flatMap quoteChar).asString

/-- The encoded path part of `get_webdav_url`: prefix a `/` when the path
does not already start with one, then percent-encode keeping `/` safe. -/
def webdavPath (path : String) : String :=
  let path := if path.data.head? ≠ some '/' then "/" ++ path else path
  pyQuote path

/-- `get_webdav_url(base_url, path)`: `f"{base_url}{encoded_path}"`. -/
def get_webdav_url (base_url path : String) : String :=
  base_url ++ webdavPath path

/-! ## Recursive tree walkers

The local and remote filesystems are embedded as finite trees (the remote
hierarchy is assumed acyclic and finite by the script).  The walkers call
the primitives above through oracles fixed for the whole traversal —
`probe` gives the `get_remote_file_info` result per remote path,
`uploadOk`/`downloadOk` the boolean outcome of `upload_webdav_file` /
`download_webdav_file` per remote path — which models one traversal
against one remote state.  Distinct files have distinct remote paths, so
an executed upload never changes the probe outcome of a later file. -/

mutual
/-- A local directory as `upload_directory_recursive` walks it: its
plain files and its subdirectories (named, with their own trees). -/
inductive LTree where
  | node : List LocalFile → LDirs → LTree
/-- The subdirectory list of a local directory. -/
inductive LDirs where
  | nil : LDirs
  | cons : String → LTree → LDirs → LDirs
end

mutual
/-- A remote directory as `download_directory_recursive` sees it through
`list_webdav_directory`: file names and named subdirectories. -/
inductive RTree where
  | node : List String → RDirs → RTree
/-- The subdirectory list of a remote directory. -/
inductive RDirs where
  | nil : RDirs
  | cons : String → RTree → RDirs → RDirs
end

/-- Counters of `download_directory_recursive`:
`(success_count, total_files)`. -/
structure DownCounters where
  success : Nat
  total : Nat
  deriving DecidableEq, Repr

/-- The per-file loop of `download_directory_recursive`: one download
attempt per listed file. -/
def downloadFilesLoop (downloadOk : String → Bool) :
    List String → String → DownCounters
  | [], _ => { success := 0, total := 0 }
  | filename :: rest, remote_path =>
    let s : Nat := if downloadOk (remote_path ++ "/" ++ filename) then 1 else 0
    let r := downloadFilesLoop downloadOk rest remote_path
    { success := s + r.success, total := 1 + r.total }

mutual
/-- `download_directory_recursive(session, base_url, remote_path,
local_path)`: downloads every listed file (counting it in `total` and,
when `download_webdav_file` returned `True`, in `success`), then recurses
into every listed subdirectory, summing counters. -/
def download_directory_recursive (downloadOk : String → Bool) :
    RTree → String → DownCounters
  | .node files dirs, remote_path =>
    let f := downloadFilesLoop downloadOk files remote_path
    let d := downloadDirsLoop downloadOk dirs remote_path
    { success := f.success + d.success, total := f.total + d.total }
/-- The subdirectory recursion of `download_directory_recursive`. -/
def downloadDirsLoop (downloadOk : String → Bool) :
    RDirs → String → DownCounters
  | .nil, _ => { success := 0, total := 0 }
  | .cons dirname sub rest, remote_path =>
    let s := download_directory_recursive downloadOk sub
      (remote_path ++ "/" ++ dirname)
    let r := downloadDirsLoop downloadOk rest remote_path
    { success := s.success + r.success, total := s.total + r.total }
end

/-- Counters and network-write effects of `upload_directory_recursive`:
`(success_count, total_files, skipped_count)` plus the remote paths PUT
was attempted on and the collections MKCOL was issued on. -/
structure UpResult where
  success : Nat
  total : Nat
  skipped : Nat
  puts : List String
  mkcols : List String
  deriving DecidableEq, Repr

/-- Sum of two `UpResult`s as the walker accumulates them. -/
def UpResult.add (a b : UpResult) : UpResult :=
  { success := a.success + b.success, total := a.total + b.total
    skipped := a.skipped + b.skipped, puts := a.puts ++ b.puts
    mkcols := a.mkcols ++ b.mkcols }

/-- The file branch of `upload_directory_recursive`: consult
`should_upload_file`; if selected, in execute mode run
`upload_webdav_file` (MKCOL on the nonempty parent, at least one PUT,
success counted iff it returned `True`), in dry-run mode count the file
as a success with no network write; otherwise count it skipped. -/
def uploadFileStep (probe : String → Option RemoteInfo)
    (uploadOk : String → Bool) (f : LocalFile) (remote_path : String)
    (execute : Bool) : UpResult :=
  let remote_file := remote_path ++ "/" ++ f.name
  let dec := should_upload_file f (probe remote_file)
  if dec.1 then
    if execute then
      let remote_dir := remoteDirOf remote_file
      { success := if uploadOk remote_file then 1 else 0, total := 1
        skipped := 0, puts := [remote_file]
        mkcols := if remote_dir ≠ "" then [remote_dir] else [] }
    else
      { success := 1, total := 1, skipped := 0, puts := [], mkcols := [] }
  else
    { success := 0, total := 1, skipped := 1, puts := [], mkcols := [] }

/-- The per-file loop of `upload_directory_recursive`. -/
def uploadFilesLoop (probe : String → Option RemoteInfo)
    (uploadOk : String → Bool) :
    List LocalFile → String → Bool → UpResult
  | [], _, _ => { success := 0, total := 0, skipped := 0, puts := [], mkcols := [] }
  | f :: rest, remote_path, execute =>
    (uploadFileStep probe uploadOk f remote_path execute).add
      (uploadFilesLoop probe uploadOk rest remote_path execute)

mutual
/-- `upload_directory_recursive(session, base_url, local_path,
remote_path, execute=False)`: walk the directory entries, files through
`uploadFileStep`, subdirectories recursively, summing
`(success, total, skipped)` and accumulating the network writes. -/
def upload_directory_recursive (probe : String → Option RemoteInfo)
    (uploadOk : String → Bool) : LTree → String → Bool → UpResult
  | .node files dirs, remote_path, execute =>
    (uploadFilesLoop probe uploadOk files remote_path execute).add
      (uploadDirsLoop probe uploadOk dirs remote_path execute)
/-- The subdirectory recursion of `upload_directory_recursive`. -/
def uploadDirsLoop (probe : String → Option RemoteInfo)
    (uploadOk : String → Bool) : LDirs → String → Bool → UpResult
  | .nil, _, _ => { success := 0, total := 0, skipped := 0, puts := [], mkcols := [] }
  | .cons name sub rest, remote_path, execute =>
    (upload_directory_recursive probe uploadOk sub
        (remote_path ++ "/" ++ name) execute).add
      (uploadDirsLoop probe uploadOk rest remote_path execute)
end

/-! ## Spec-level counts over a local tree

Per-file weights summed over a whole local tree, used to compare the
walker's counters against the spec's description of them. -/

/-- Sum of a per-file weight (file, current remote directory) over a file
list. -/
def countFilesBy (p : LocalFile → String → Nat) :
    List LocalFile → String → Nat
  | [], _ => 0
  | f :: rest, remote_path => p f remote_path + countFilesBy p rest remote_path

mutual
/-- Sum of a per-file weight over every file of a local tree, threading
the remote directory path the walker would use. -/
def countTreeBy (p : LocalFile → String → Nat) : LTree → String → Nat
  | .node files dirs, remote_path =>
    countFilesBy p files remote_path + countDirsBy p dirs remote_path
/-- Sum of a per-file weight over a subdirectory list. -/
def countDirsBy (p : LocalFile → String → Nat) : LDirs → String → Nat
  | .nil, _ => 0
  | .cons name sub rest, remote_path =>
    countTreeBy p sub (remote_path ++ "/" ++ name) +
      countDirsBy p rest remote_path
end

/-- Weight 1 for every file: counting all files. -/
def onePred : LocalFile → String → Nat := fun _ _ => 1

/-- Weight 1 for a file `should_upload_file` selects. -/
def wouldPred (probe : String → Option RemoteInfo) :
    LocalFile → String → Nat := fun f rp =>
  if (should_upload_file f (probe (rp ++ "/" ++ f.name))).1 then 1 else 0

/-- Weight 1 for a file `should_upload_file` rejects. -/
def skipPred (probe : String → Option RemoteInfo) :
    LocalFile → String → Nat := fun f rp =>
  if (should_upload_file f (probe (rp ++ "/" ++ f.name))).1 then 0 else 1

/-- Weight 1 for a selected file whose real upload succeeds. -/
def transferPred (probe : String → Option RemoteInfo)
    (uploadOk : String → Bool) : LocalFile → String → Nat := fun f rp =>
  if (should_upload_file f (probe (rp ++ "/" ++ f.name))).1 ∧
      uploadOk (rp ++ "/" ++ f.name) then 1 else 0

/-- Weight 1 for a selected file whose real upload fails. -/
def failPred (probe : String → Option RemoteInfo)
    (uploadOk : String → Bool) : LocalFile → String → Nat := fun f rp =>
  if (should_upload_file f (probe (rp ++ "/" ++ f.name))).1 ∧
      ¬ uploadOk (rp ++ "/" ++ f.name) then 1 else 0

/-- Modelled from the spec: the number of files in the tree. -/
def totalCount (t : LTree) (remote_path : String) : Nat :=
  countTreeBy onePred t remote_path

/-- Modelled from the spec: the number of files for which
`should_upload_file` decides to upload ("would upload"). -/
def wouldUploadCount (probe : String → Option RemoteInfo)
    (t : LTree) (remote_path : String) : Nat :=
  countTreeBy (wouldPred probe) t remote_path

/-- Modelled from the spec: the number of files for which
`should_upload_file` decides not to upload (skipped as unchanged). -/
def skippedCount (probe : String → Option RemoteInfo)
    (t : LTree) (remote_path : String) : Nat :=
  countTreeBy (skipPred probe) t remote_path

/-- Modelled from the spec: the number of files that execute mode would
actually transfer — `should_upload_file` decides true and the real upload
succeeds. -/
def transferredCount (probe : String → Option RemoteInfo)
    (uploadOk : String → Bool) (t : LTree) (remote_path : String) : Nat :=
  countTreeBy (transferPred probe uploadOk) t remote_path

/-- Modelled from the spec: the number of files whose real upload would
fail — `should_upload_file` decides true but the upload returns `False`. -/
def failedUploadCount (probe : String → Option RemoteInfo)
    (uploadOk : String → Bool) (t : LTree) (remote_path : String) : Nat :=
  countTreeBy (failPred probe uploadOk) t remote_path

/-! ## Helper predicates for the theorems -/

/-- Substring containment on strings (Python `needle in hay`). -/
def strContains (hay needle : String) : Bool :=
  decide (needle.data <:+: hay.data)

/-- A `get_remote_file_info` attempt outcome that falls into the retry
branch: any status other than 207 and 404, or an exception. -/
def probeRetriable : ProbeResp → Bool
  | .http code _ => if code = 207 then false else if code = 404 then false else true
  | .exn => true

/-- A `list_webdav_directory` attempt outcome that falls into the retry
branch: any status other than 207, or an exception. -/
def listRetriable : ListResp → Bool
  | .http code _ => if code = 207 then false else true
  | .exn => true

/-- A `download_webdav_file` attempt outcome that falls into the retry
branch: any status other than 200, or an exception. -/
def downloadRetriable : DownloadResp → Bool
  | .http code _ => if code = 200 then false else true
  | .exn => true

/-- An `upload_webdav_file` attempt outcome that falls into the retry
branch: any status outside `[200, 201, 204]`, or an exception. -/
def uploadRetriable : UploadResp → Bool
  | .http code => if code = 200 ∨ code = 201 ∨ code = 204 then false else true
  | .exn => true

/-- A character that may appear in a percent escape: `%`, a digit, or an
uppercase hex letter — in particular never a path separator. -/
def percentEscapeChar (ch : Char) : Bool :=
  ch != '/' && (ch == '%' || ch.isDigit || (decide ('A' ≤ ch) && decide (ch ≤ 'F')))

/-! ## C2 – C4: the change-detection policy -/

/-- C2: for every local file and remote path, if the metadata probe yields
absent then `should_upload_file` returns the decision true with reason
exactly "new file". -/
theorem C2_probe_absent_new_file (f : LocalFile) :
    should_upload_file f none = (true, "new file") := rfl

/-- C3: for every local file and remote file whose probed byte sizes are
equal, `should_upload_file` returns the decision false with reason exactly
"unchanged" — for any file content and any modification time, neither of
which the decision consults. -/
theorem C3_equal_sizes_unchanged (name : String) (size : Nat)
    (content : List Nat) (modified : Option String) :
    should_upload_file { name := name, size := size, content := content }
      (some { size := some size, modified := modified }) =
      (false, "unchanged") := by
  simp [should_upload_file]

/-- C4: for every local file and existing remote file whose probed byte
sizes differ, `should_upload_file` decides true with a reason string
containing both the remote size and the local size. -/
theorem C4_size_mismatch (f : LocalFile) (m : Nat) (modified : Option String)
    (h : m ≠ f.size) :
    (should_upload_file f (some { size := some m, modified := modified })).1
      = true ∧
    strContains
      (should_upload_file f (some { size := some m, modified := modified })).2
      (toString m) = true ∧
    strContains
      (should_upload_file f (some { size := some m, modified := modified })).2
      (toString f.size) = true := by
  have hres : should_upload_file f (some { size := some m, modified := modified })
      = (true, "size changed (" ++ toString m ++ " -> " ++ toString f.size ++ ")") := by
    simp [should_upload_file, optSizeStr, h]
  refine ⟨by rw [hres], ?_, ?_⟩
  · rw [hres]
    simp only [strContains, decide_eq_true_eq, String.data_append]
    exact ⟨"size changed (".data, (" -> " ++ toString f.size ++ ")").data,
      by simp [String.data_append]⟩
  · rw [hres]
    simp only [strContains, decide_eq_true_eq, String.data_append]
    exact ⟨("size changed (" ++ toString m ++ " -> ").data, ")".data,
      by simp [String.data_append]⟩

/-- Witness for C4 at a concrete input: remote size 3, local size 5. -/
theorem C4_size_mismatch_witness :
    (should_upload_file { name := "x", size := 5, content := [] }
      (some { size := some 3, modified := none })).1 = true ∧
    strContains
      (should_upload_file { name := "x", size := 5, content := [] }
        (some { size := some 3, modified := none })).2 (toString 3) = true ∧
    strContains
      (should_upload_file { name := "x", size := 5, content := [] }
        (some { size := some 3, modified := none })).2 (toString 5) = true :=
  C4_size_mismatch { name := "x", size := 5, content := [] } 3 none (by decide)

/-! ## C5 – C7, C10: the retry loops -/

/-- One retriable step of the probe loop: a failing attempt adds one
request, sleeps 1 second iff another iteration remains, and continues. -/
theorem probeLoop_retriable_step (resp : Nat → ProbeResp) (a n : Nat)
    (h : probeRetriable (resp a) = true) :
    probeLoop resp a (n + 1) =
      { info := (probeLoop resp (a + 1) n).info
        attempts := 1 + (probeLoop resp (a + 1) n).attempts
        sleeps := (if n ≥ 1 then [1] else []) ++ (probeLoop resp (a + 1) n).sleeps } := by
  cases hr : resp a with
  | http code body =>
    rw [hr] at h
    simp only [probeRetriable] at h
    split at h
    · simp at h
    · split at h
      · simp at h
      · simp_all [probeLoop]
  | exn => simp [probeLoop, hr]

/-- C5: a 404 on the first PROPFIND makes `get_remote_file_info` return
absent immediately — one request, no sleep; if instead every one of the
3 attempts hits the retry branch (non-207/404 status or exception), it
performs 3 requests with a 1-second sleep after each non-final one and
returns absent. -/
theorem C5_probe_not_found_and_retry (resp : Nat → ProbeResp) :
    (∀ body, resp 0 = .http 404 body →
      get_remote_file_info resp = { info := none, attempts := 1, sleeps := [] }) ∧
    ((∀ i, i < 3 → probeRetriable (resp i) = true) →
      get_remote_file_info resp = { info := none, attempts := 3, sleeps := [1, 1] }) := by
  constructor
  · intro body h0
    simp [get_remote_file_info, probeLoop, h0]
  · intro hall
    rw [get_remote_file_info]
    rw [show (3 : Nat) = 2 + 1 from rfl,
      probeLoop_retriable_step resp 0 2 (hall 0 (by omega)),
      show (2 : Nat) = 1 + 1 from rfl,
      probeLoop_retriable_step resp 1 1 (hall 1 (by omega)),
      show (1 : Nat) = 0 + 1 from rfl,
      probeLoop_retriable_step resp 2 0 (hall 2 (by omega))]
    simp [probeLoop]

/-- Witness for C5: a constant-404 oracle and a constant-exception
oracle, evaluated concretely. -/
theorem C5_witness :
    get_remote_file_info (fun _ => .http 404 "") =
      { info := none, attempts := 1, sleeps := [] } ∧
    get_remote_file_info (fun _ => .exn) =
      { info := none, attempts := 3, sleeps := [1, 1] } :=
  ⟨(C5_probe_not_found_and_retry (fun _ => .http 404 "")).1 "" rfl,
   (C5_probe_not_found_and_retry (fun _ => .exn)).2 (fun _ _ => rfl)⟩

/-- When every attempt of the listing loop hits the retry branch, it
returns the empty pair after exactly as many requests as iterations. -/
theorem listLoop_all_retriable (resp : Nat → ListResp) (remote_path : String) :
    ∀ (n a : Nat), (∀ i, a ≤ i → i < a + n → listRetriable (resp i) = true) →
      (listLoop resp remote_path a n).files = [] ∧
      (listLoop resp remote_path a n).directories = [] ∧
      (listLoop resp remote_path a n).attempts = n := by
  intro n
  induction n with
  | zero => intro a _; simp [listLoop]
  | succ n ih =>
    intro a h
    have ha : listRetriable (resp a) = true := h a (by omega) (by omega)
    have ihs := ih (a + 1) (fun i h1 h2 => h i (by omega) (by omega))
    cases hr : resp a with
    | http code blocks =>
      rw [hr] at ha
      by_cases hc : code = 207
      · rw [hc] at ha; simp [listRetriable] at ha
      · simp only [listLoop, hr, if_neg hc]
        refine ⟨ihs.1, ihs.2.1, ?_⟩
        simp [ihs.2.2]
        omega
    | exn =>
      simp only [listLoop, hr]
      refine ⟨ihs.1, ihs.2.1, ?_⟩
      simp [ihs.2.2]
      omega

/-- C6: when every one of the 3 listing attempts fails (non-success
status or exception), `list_webdav_directory` returns the empty pair —
no files and no directories — rather than an error value. -/
theorem C6_list_failure_empty (resp : Nat → ListResp) (remote_path : String)
    (h : ∀ i, i < 3 → listRetriable (resp i) = true) :
    (list_webdav_directory resp remote_path).files = [] ∧
    (list_webdav_directory resp remote_path).directories = [] := by
  have hall := listLoop_all_retriable resp remote_path 3 0
    (fun i _ h2 => h i (by omega))
  exact ⟨hall.1, hall.2.1⟩

/-- Witness for C6: an oracle that raises on every attempt. -/
theorem C6_witness :
    (list_webdav_directory (fun _ => .exn) "/thetawave/data").files = [] ∧
    (list_webdav_directory (fun _ => .exn) "/thetawave/data").directories = [] :=
  C6_list_failure_empty (fun _ => .exn) "/thetawave/data" (fun _ _ => rfl)

/-- When every attempt of the download loop hits the retry branch, it
returns `False` after exactly as many requests as iterations. -/
theorem downloadLoop_all_retriable (resp : Nat → DownloadResp) :
    ∀ (n a : Nat), (∀ i, a ≤ i → i < a + n → downloadRetriable (resp i) = true) →
      (downloadLoop resp a n).success = false ∧
      (downloadLoop resp a n).attempts = n := by
  intro n
  induction n with
  | zero => intro a _; simp [downloadLoop]
  | succ n ih =>
    intro a h
    have ha : downloadRetriable (resp a) = true := h a (by omega) (by omega)
    have ihs := ih (a + 1) (fun i h1 h2 => h i (by omega) (by omega))
    cases hr : resp a with
    | http code content =>
      rw [hr] at ha
      by_cases hc : code = 200
      · rw [hc] at ha; simp [downloadRetriable] at ha
      · simp only [downloadLoop, hr, if_neg hc]
        refine ⟨ihs.1, ?_⟩
        simp [ihs.2]
        omega
    | exn =>
      simp only [downloadLoop, hr]
      refine ⟨ihs.1, ?_⟩
      simp [ihs.2]
      omega

/-- When every attempt of the upload PUT loop hits the retry branch, it
returns `False` after exactly as many requests as iterations. -/
theorem uploadLoop_all_retriable (resp : Nat → UploadResp) :
    ∀ (n a : Nat), (∀ i, a ≤ i → i < a + n → uploadRetriable (resp i) = true) →
      (uploadLoop resp a n).1 = false ∧ (uploadLoop resp a n).2.1 = n := by
  intro n
  induction n with
  | zero => intro a _; simp [uploadLoop]
  | succ n ih =>
    intro a h
    have ha : uploadRetriable (resp a) = true := h a (by omega) (by omega)
    have ihs := ih (a + 1) (fun i h1 h2 => h i (by omega) (by omega))
    cases hr : resp a with
    | http code =>
      rw [hr] at ha
      by_cases hc : code = 200 ∨ code = 201 ∨ code = 204
      · simp only [uploadRetriable] at ha; rw [if_pos hc] at ha; simp at ha
      · simp only [uploadLoop, hr, if_neg hc]
        refine ⟨ihs.1, ?_⟩
        simp [ihs.2]
        omega
    | exn =>
      simp only [uploadLoop, hr]
      refine ⟨ihs.1, ?_⟩
      simp [ihs.2]
      omega

/-- C7: each retriable primitive — directory lister, file download, file
upload — performs exactly `max_retries` attempts when every attempt
fails, and then returns its failure value (empty pair, `False`,
`False`). -/
theorem C7_retry_exhaustion (max_retries : Nat) (respL : Nat → ListResp)
    (respD : Nat → DownloadResp) (respU : Nat → UploadResp)
    (remote_path remote_file : String) :
    ((∀ i, i < max_retries → listRetriable (respL i) = true) →
      (list_webdav_directory respL remote_path max_retries).attempts = max_retries ∧
      (list_webdav_directory respL remote_path max_retries).files = [] ∧
      (list_webdav_directory respL remote_path max_retries).directories = []) ∧
    ((∀ i, i < max_retries → downloadRetriable (respD i) = true) →
      (download_webdav_file respD max_retries).attempts = max_retries ∧
      (download_webdav_file respD max_retries).success = false) ∧
    ((∀ i, i < max_retries → uploadRetriable (respU i) = true) →
      (upload_webdav_file respU remote_file max_retries).attempts = max_retries ∧
      (upload_webdav_file respU remote_file max_retries).success = false) := by
  refine ⟨fun h => ?_, fun h => ?_, fun h => ?_⟩
  · have hall := listLoop_all_retriable respL remote_path max_retries 0
      (fun i _ h2 => h i (by omega))
    exact ⟨hall.2.2, hall.1, hall.2.1⟩
  · have hall := downloadLoop_all_retriable respD max_retries 0
      (fun i _ h2 => h i (by omega))
    exact ⟨hall.2, hall.1⟩
  · have hall := uploadLoop_all_retriable respU max_retries 0
      (fun i _ h2 => h i (by omega))
    constructor
    · simp [upload_webdav_file, hall.2]
    · simp [upload_webdav_file, hall.1]

/-- Witness for C7: every attempt raises, at the default of 3 retries. -/
theorem C7_witness :
    ((list_webdav_directory (fun _ => .exn) "/thetawave/data" 3).attempts = 3 ∧
      (list_webdav_directory (fun _ => .exn) "/thetawave/data" 3).files = [] ∧
      (list_webdav_directory (fun _ => .exn) "/thetawave/data" 3).directories = []) ∧
    ((download_webdav_file (fun _ => .exn) 3).attempts = 3 ∧
      (download_webdav_file (fun _ => .exn) 3).success = false) ∧
    ((upload_webdav_file (fun _ => .exn) "/thetawave/data/x.png" 3).attempts = 3 ∧
      (upload_webdav_file (fun _ => .exn) "/thetawave/data/x.png" 3).success = false) := by
  have h := C7_retry_exhaustion 3 (fun _ => .exn) (fun _ => .exn) (fun _ => .exn)
    "/thetawave/data" "/thetawave/data/x.png"
  exact ⟨h.1 (fun _ _ => rfl), h.2.1 (fun _ _ => rfl), h.2.2 (fun _ _ => rfl)⟩

/-- C10: a multi-status probe response whose body has no parseable
content-length yields a present record with an absent size, and
`should_upload_file` then decides true with a reason reporting a size
change from `None` — never "unchanged". -/
theorem C10_unparseable_size (resp : Nat → ProbeResp) (body : String)
    (f : LocalFile) (h0 : resp 0 = .http 207 body)
    (hsz : searchContentLength body.data = none) :
    (get_remote_file_info resp).info =
      some { size := none, modified := searchLastModified body.data } ∧
    should_upload_file f
        (some { size := none, modified := searchLastModified body.data }) =
      (true, "size changed (None -> " ++ toString f.size ++ ")") ∧
    (should_upload_file f
        (some { size := none, modified := searchLastModified body.data })).2 ≠
      "unchanged" := by
  have h2 : should_upload_file f
      (some { size := none, modified := searchLastModified body.data }) =
      (true, "size changed (None -> " ++ toString f.size ++ ")") := by
    simp only [should_upload_file, optSizeStr]
    rw [if_pos (by simp)]
    refine Prod.ext rfl ?_
    show ("size changed (" ++ "None" ++ " -> ") ++ toString f.size ++ ")" =
      "size changed (None -> " ++ toString f.size ++ ")"
    rw [show ("size changed (" ++ "None" ++ " -> ") = "size changed (None -> "
      from by decide]
  refine ⟨?_, h2, ?_⟩
  · simp [get_remote_file_info, probeLoop, h0, parseProbeBody, hsz]
  · rw [h2]
    intro hcontra
    have hlen := congrArg String.length hcontra
    simp only [String.length_append] at hlen
    rw [show ("size changed (None -> " : String).length = 22 from rfl,
      show (")" : String).length = 1 from rfl,
      show ("unchanged" : String).length = 9 from rfl] at hlen
    omega

/-- Witness for C10: body `"<x>"` has no content-length tag. -/
theorem C10_witness :
    (get_remote_file_info (fun _ => .http 207 "<x>")).info =
      some { size := none, modified := searchLastModified "<x>".data } ∧
    should_upload_file { name := "a", size := 7, content := [] }
        (some { size := none, modified := searchLastModified "<x>".data }) =
      (true, "size changed (None -> " ++ toString 7 ++ ")") ∧
    (should_upload_file { name := "a", size := 7, content := [] }
        (some { size := none, modified := searchLastModified "<x>".data })).2 ≠
      "unchanged" :=
  C10_unparseable_size (fun _ => .http 207 "<x>") "<x>"
    { name := "a", size := 7, content := [] } rfl rfl

/-! ## C8: the path codec -/

/-- Every Unicode code point is below `0x110000`. -/
theorem char_toNat_lt_110000 (c : Char) : c.toNat < 0x110000 := by
  have h := c.valid
  unfold UInt32.isValidChar Nat.isValidChar at h
  rcases h with h | ⟨h1, h2⟩
  · have hn : c.val.toNat < 55296 := h
    show c.val.toNat < _
    omega
  · show c.val.toNat < _
    omega

/-- `utf8Bytes` of a valid code point yields bytes below 256. -/
theorem utf8Bytes_lt_256 (n : Nat) (hn : n < 0x110000) :
    ∀ b ∈ utf8Bytes n, b < 256 := by
  intro b hb
  rw [utf8Bytes] at hb
  split at hb
  · simp at hb; omega
  · split at hb
    · simp at hb; rcases hb with hb | hb <;> omega
    · split at hb
      · simp at hb; rcases hb with hb | hb | hb <;> omega
      · simp at hb; rcases hb with hb | hb | hb | hb <;> omega

/-- `utf8Bytes` is never empty. -/
theorem utf8Bytes_ne_nil (n : Nat) : utf8Bytes n ≠ [] := by
  rw [utf8Bytes]
  split
  · simp
  · split
    · simp
    · split <;> simp

/-- Every hex digit of a value below 16 is a legitimate escape character. -/
theorem hexDigit_escape : ∀ m, m < 16 → percentEscapeChar (hexDigit m) = true := by
  decide

/-- All characters of a byte escape are escape characters. -/
theorem percentByte_all (b : Nat) (hb : b < 256) :
    (percentByte b).all percentEscapeChar = true := by
  have h1 : b / 16 < 16 := by omega
  have h2 : b % 16 < 16 := by omega
  simp [percentByte, hexDigit_escape _ h1, hexDigit_escape _ h2]
  rfl

/-- An unsafe character quotes to escape characters only (so in
particular no path separator ever comes out of an escape). -/
theorem quoteChar_unsafe_all (c : Char) (hc : quoteSafe c = false) :
    (quoteChar c).all percentEscapeChar = true := by
  rw [quoteChar, if_neg (by simp [hc])]
  rw [List.all_eq_true]
  intro ch hch
  rw [List.mem_flatMap] at hch
  obtain ⟨b, hb, hchb⟩ := hch
  have hb256 := utf8Bytes_lt_256 c.toNat (char_toNat_lt_110000 c) b hb
  have := percentByte_all b hb256
  rw [List.all_eq_true] at this
  exact this ch hchb

/-- `List.asString` holds exactly the given characters. -/
theorem data_asString (l : List Char) : l.asString.data = l := rfl

/-- `pyQuote` distributes over append. -/
theorem pyQuote_append (a b : String) :
    pyQuote (a ++ b) = pyQuote a ++ pyQuote b := by
  simp only [pyQuote, String.data_append, List.flatMap_append]
  rfl

/-- The path separator is safe and passes through `quoteChar` intact. -/
theorem quoteChar_slash : quoteChar '/' = ['/'] := rfl

/-- A character other than `/` never quotes to something starting with
`/`: safe characters pass through, unsafe ones start with `%`. -/
theorem quoteChar_head_ne_slash (c : Char) (hc : c ≠ '/') :
    (quoteChar c).head? ≠ some '/' := by
  rw [quoteChar]
  split
  · simpa using hc
  · cases hu : utf8Bytes c.toNat with
    | nil => exact absurd hu (utf8Bytes_ne_nil c.toNat)
    | cons b bs =>
      simp [List.flatMap_cons, percentByte]

/-- C8: for every path without a leading separator, the codec output has
exactly one leading separator (it starts with `/` and its second
character, if any, is not `/`); `pyQuote` preserves every separator
literally (it maps a separator-split to a separator-split); and every
character a reserved (unsafe) character produces is a percent-escape
character — `%`, a digit or `A`–`F` — never a separator. -/
theorem C8_path_codec (path a b : String) (c : Char)
    (hpath : path.data.head? ≠ some '/') (hc : quoteSafe c = false) :
    (webdavPath path).data.head? = some '/' ∧
    (webdavPath path).data.tail.head? ≠ some '/' ∧
    pyQuote (a ++ "/" ++ b) = pyQuote a ++ "/" ++ pyQuote b ∧
    (quoteChar c).all percentEscapeChar = true := by
  have hw : webdavPath path = "/" ++ pyQuote path := by
    rw [webdavPath, if_pos hpath]
    rw [pyQuote_append]
    rfl
  refine ⟨?_, ?_, ?_, quoteChar_unsafe_all c hc⟩
  · rw [hw]
    simp [String.data_append]
  · rw [hw]
    have hdata : ("/" ++ pyQuote path).data = '/' :: (pyQuote path).data := by
      rw [String.data_append]; rfl
    rw [hdata]
    simp only [List.tail_cons]
    cases hp : path.data with
    | nil => simp [pyQuote, hp, data_asString]
    | cons c0 cs =>
      have hc0 : c0 ≠ '/' := by
        intro hcontra
        rw [hp, hcontra] at hpath
        simp at hpath
      simp only [pyQuote, hp, List.flatMap_cons, data_asString]
      rw [List.head?_append_of_ne_nil]
      · exact quoteChar_head_ne_slash c0 hc0
      · rw [quoteChar]
        split
        · simp
        · cases hu : utf8Bytes c0.toNat with
          | nil => exact absurd hu (utf8Bytes_ne_nil c0.toNat)
          | cons b bs => simp [List.flatMap_cons, percentByte]
  · rw [pyQuote_append, pyQuote_append]
    rfl

/-- Witness for C8 at a concrete path, segments and reserved character. -/
theorem C8_witness :
    (webdavPath "thetawave/data").data.head? = some '/' ∧
    (webdavPath "thetawave/data").data.tail.head? ≠ some '/' ∧
    pyQuote ("a b" ++ "/" ++ "c%d") = pyQuote "a b" ++ "/" ++ pyQuote "c%d" ∧
    (quoteChar ' ').all percentEscapeChar = true :=
  C8_path_codec "thetawave/data" "a b" "c%d" ' ' (by decide) (by decide)

/-! ## C1, C9: the tree walkers -/

/-- Pointwise addition of per-file weights lifts to file lists. -/
theorem countFilesBy_add (p q r : LocalFile → String → Nat)
    (h : ∀ f s, p f s + q f s = r f s) :
    ∀ (fs : List LocalFile) (rp : String),
      countFilesBy p fs rp + countFilesBy q fs rp = countFilesBy r fs rp
  | [], _ => rfl
  | f :: rest, rp => by
    simp only [countFilesBy]
    have h1 := countFilesBy_add p q r h rest rp
    have h2 := h f rp
    omega

mutual
/-- Pointwise addition of per-file weights lifts to whole trees. -/
theorem countTreeBy_add (p q r : LocalFile → String → Nat)
    (h : ∀ f s, p f s + q f s = r f s) :
    ∀ (t : LTree) (rp : String),
      countTreeBy p t rp + countTreeBy q t rp = countTreeBy r t rp
  | .node files dirs, rp => by
    simp only [countTreeBy]
    have h1 := countFilesBy_add p q r h files rp
    have h2 := countDirsBy_add p q r h dirs rp
    omega
/-- Pointwise addition of per-file weights lifts to subdirectory lists. -/
theorem countDirsBy_add (p q r : LocalFile → String → Nat)
    (h : ∀ f s, p f s + q f s = r f s) :
    ∀ (ds : LDirs) (rp : String),
      countDirsBy p ds rp + countDirsBy q ds rp = countDirsBy r ds rp
  | .nil, _ => rfl
  | .cons name sub rest, rp => by
    simp only [countDirsBy]
    have h1 := countTreeBy_add p q r h sub (rp ++ "/" ++ name)
    have h2 := countDirsBy_add p q r h rest rp
    omega
end

/-- Pointwise equal per-file weights count equally over file lists. -/
theorem countFilesBy_congr (p q : LocalFile → String → Nat)
    (h : ∀ f s, p f s = q f s) :
    ∀ (fs : List LocalFile) (rp : String),
      countFilesBy p fs rp = countFilesBy q fs rp
  | [], _ => rfl
  | f :: rest, rp => by
    simp only [countFilesBy, h f rp, countFilesBy_congr p q h rest rp]

mutual
/-- Pointwise equal per-file weights count equally over trees. -/
theorem countTreeBy_congr (p q : LocalFile → String → Nat)
    (h : ∀ f s, p f s = q f s) :
    ∀ (t : LTree) (rp : String), countTreeBy p t rp = countTreeBy q t rp
  | .node files dirs, rp => by
    simp only [countTreeBy, countFilesBy_congr p q h files rp,
      countDirsBy_congr p q h dirs rp]
/-- Pointwise equal per-file weights count equally over subdirectory
lists. -/
theorem countDirsBy_congr (p q : LocalFile → String → Nat)
    (h : ∀ f s, p f s = q f s) :
    ∀ (ds : LDirs) (rp : String), countDirsBy p ds rp = countDirsBy q ds rp
  | .nil, _ => rfl
  | .cons name sub rest, rp => by
    simp only [countDirsBy, countTreeBy_congr p q h sub (rp ++ "/" ++ name),
      countDirsBy_congr p q h rest rp]
end

/-- Every file is counted either as would-upload or as skipped. -/
theorem wouldPred_add_skipPred (probe : String → Option RemoteInfo)
    (f : LocalFile) (s : String) :
    wouldPred probe f s + skipPred probe f s = onePred f s := by
  simp only [wouldPred, skipPred, onePred]
  by_cases h : (should_upload_file f (probe (s ++ "/" ++ f.name))).1 = true <;>
    simp [h]

/-- Every selected file either transfers or fails. -/
theorem transferPred_add_failPred (probe : String → Option RemoteInfo)
    (uploadOk : String → Bool) (f : LocalFile) (s : String) :
    transferPred probe uploadOk f s + failPred probe uploadOk f s =
      wouldPred probe f s := by
  simp only [transferPred, failPred, wouldPred]
  by_cases hd : (should_upload_file f (probe (s ++ "/" ++ f.name))).1 = true <;>
    by_cases ho : uploadOk (s ++ "/" ++ f.name) = true <;> simp [hd, ho]

/-- Dry-run behaviour of the per-file loop: every selected file counts as
a success, every rejected one as skipped, and no PUT or MKCOL happens. -/
theorem uploadFilesLoop_dry (probe : String → Option RemoteInfo)
    (uploadOk : String → Bool) :
    ∀ (fs : List LocalFile) (rp : String),
      uploadFilesLoop probe uploadOk fs rp false =
        { success := countFilesBy (wouldPred probe) fs rp
          total := countFilesBy onePred fs rp
          skipped := countFilesBy (skipPred probe) fs rp
          puts := [], mkcols := [] }
  | [], _ => rfl
  | f :: rest, rp => by
    have ih := uploadFilesLoop_dry probe uploadOk rest rp
    simp only [uploadFilesLoop, uploadFileStep, ih, UpResult.add, countFilesBy,
      wouldPred, skipPred, onePred]
    by_cases hd : (should_upload_file f (probe (rp ++ "/" ++ f.name))).1 = true <;>
      simp [hd]

mutual
/-- Dry-run behaviour of the upload walker over a whole tree. -/
theorem upload_tree_dry (probe : String → Option RemoteInfo)
    (uploadOk : String → Bool) :
    ∀ (t : LTree) (rp : String),
      upload_directory_recursive probe uploadOk t rp false =
        { success := countTreeBy (wouldPred probe) t rp
          total := countTreeBy onePred t rp
          skipped := countTreeBy (skipPred probe) t rp
          puts := [], mkcols := [] }
  | .node files dirs, rp => by
    have h1 := uploadFilesLoop_dry probe uploadOk files rp
    have h2 := upload_dirs_dry probe uploadOk dirs rp
    simp [upload_directory_recursive, h1, h2, UpResult.add, countTreeBy]
/-- Dry-run behaviour of the upload walker over a subdirectory list. -/
theorem upload_dirs_dry (probe : String → Option RemoteInfo)
    (uploadOk : String → Bool) :
    ∀ (ds : LDirs) (rp : String),
      uploadDirsLoop probe uploadOk ds rp false =
        { success := countDirsBy (wouldPred probe) ds rp
          total := countDirsBy onePred ds rp
          skipped := countDirsBy (skipPred probe) ds rp
          puts := [], mkcols := [] }
  | .nil, _ => rfl
  | .cons name sub rest, rp => by
    have h1 := upload_tree_dry probe uploadOk sub (rp ++ "/" ++ name)
    have h2 := upload_dirs_dry probe uploadOk rest rp
    simp [uploadDirsLoop, h1, h2, UpResult.add, countDirsBy]
end

/-- Execute-mode counters of the per-file loop. -/
theorem uploadFilesLoop_exec (probe : String → Option RemoteInfo)
    (uploadOk : String → Bool) :
    ∀ (fs : List LocalFile) (rp : String),
      (uploadFilesLoop probe uploadOk fs rp true).success =
        countFilesBy (transferPred probe uploadOk) fs rp ∧
      (uploadFilesLoop probe uploadOk fs rp true).total =
        countFilesBy onePred fs rp ∧
      (uploadFilesLoop probe uploadOk fs rp true).skipped =
        countFilesBy (skipPred probe) fs rp
  | [], _ => ⟨rfl, rfl, rfl⟩
  | f :: rest, rp => by
    have ih := uploadFilesLoop_exec probe uploadOk rest rp
    by_cases hd : (should_upload_file f (probe (rp ++ "/" ++ f.name))).1 = true <;>
      by_cases ho : uploadOk (rp ++ "/" ++ f.name) = true <;>
        simp [uploadFilesLoop, uploadFileStep, UpResult.add, countFilesBy,
          transferPred, skipPred, onePred, hd, ho, ih.1, ih.2.1, ih.2.2]

mutual
/-- Execute-mode counters of the upload walker over a whole tree. -/
theorem upload_tree_exec (probe : String → Option RemoteInfo)
    (uploadOk : String → Bool) :
    ∀ (t : LTree) (rp : String),
      (upload_directory_recursive probe uploadOk t rp true).success =
        countTreeBy (transferPred probe uploadOk) t rp ∧
      (upload_directory_recursive probe uploadOk t rp true).total =
        countTreeBy onePred t rp ∧
      (upload_directory_recursive probe uploadOk t rp true).skipped =
        countTreeBy (skipPred probe) t rp
  | .node files dirs, rp => by
    have h1 := uploadFilesLoop_exec probe uploadOk files rp
    have h2 := upload_dirs_exec probe uploadOk dirs rp
    simp [upload_directory_recursive, UpResult.add, countTreeBy,
      h1.1, h1.2.1, h1.2.2, h2.1, h2.2.1, h2.2.2]
/-- Execute-mode counters of the upload walker over a subdirectory
list. -/
theorem upload_dirs_exec (probe : String → Option RemoteInfo)
    (uploadOk : String → Bool) :
    ∀ (ds : LDirs) (rp : String),
      (uploadDirsLoop probe uploadOk ds rp true).success =
        countDirsBy (transferPred probe uploadOk) ds rp ∧
      (uploadDirsLoop probe uploadOk ds rp true).total =
        countDirsBy onePred ds rp ∧
      (uploadDirsLoop probe uploadOk ds rp true).skipped =
        countDirsBy (skipPred probe) ds rp
  | .nil, _ => ⟨rfl, rfl, rfl⟩
  | .cons name sub rest, rp => by
    have h1 := upload_tree_exec probe uploadOk sub (rp ++ "/" ++ name)
    have h2 := upload_dirs_exec probe uploadOk rest rp
    simp [uploadDirsLoop, UpResult.add, countDirsBy,
      h1.1, h1.2.1, h1.2.2, h2.1, h2.2.1, h2.2.2]
end

/-- The download per-file loop never counts more successes than files. -/
theorem downloadFilesLoop_le (downloadOk : String → Bool) :
    ∀ (fs : List String) (rp : String),
      (downloadFilesLoop downloadOk fs rp).success ≤
        (downloadFilesLoop downloadOk fs rp).total
  | [], _ => Nat.le_refl 0
  | f :: rest, rp => by
    have ih := downloadFilesLoop_le downloadOk rest rp
    simp only [downloadFilesLoop]
    by_cases h : downloadOk (rp ++ "/" ++ f) = true <;> simp [h] <;> omega

mutual
/-- The download walker never counts more successes than files. -/
theorem download_tree_le (downloadOk : String → Bool) :
    ∀ (t : RTree) (rp : String),
      (download_directory_recursive downloadOk t rp).success ≤
        (download_directory_recursive downloadOk t rp).total
  | .node files dirs, rp => by
    have h1 := downloadFilesLoop_le downloadOk files rp
    have h2 := download_dirs_le downloadOk dirs rp
    simp only [download_directory_recursive]
    omega
/-- The download walker's subdirectory recursion never counts more
successes than files. -/
theorem download_dirs_le (downloadOk : String → Bool) :
    ∀ (ds : RDirs) (rp : String),
      (downloadDirsLoop downloadOk ds rp).success ≤
        (downloadDirsLoop downloadOk ds rp).total
  | .nil, _ => Nat.le_refl 0
  | .cons name sub rest, rp => by
    have h1 := download_tree_le downloadOk sub (rp ++ "/" ++ name)
    have h2 := download_dirs_le downloadOk rest rp
    simp only [downloadDirsLoop]
    omega
end

/-- C1 counterexample: one local file `x` (5 bytes), absent remotely, with
a failing remote upload.  Dry-run counts 1 "would upload", but execute
mode actually transfers 0 files — the two counts differ, so the dry-run
success count does not in general equal what execute mode would actually
transfer. -/
theorem C1_counterexample :
    (upload_directory_recursive (fun _ => none) (fun _ => false)
        (.node [{ name := "x", size := 5, content := [] }] .nil)
        "/thetawave/data" false).success = 1 ∧
    (upload_directory_recursive (fun _ => none) (fun _ => false)
        (.node [{ name := "x", size := 5, content := [] }] .nil)
        "/thetawave/data" true).success = 0 ∧
    (upload_directory_recursive (fun _ => none) (fun _ => false)
        (.node [{ name := "x", size := 5, content := [] }] .nil)
        "/thetawave/data" false).success ≠
      (upload_directory_recursive (fun _ => none) (fun _ => false)
        (.node [{ name := "x", size := 5, content := [] }] .nil)
        "/thetawave/data" true).success := by
  refine ⟨rfl, rfl, ?_⟩
  decide

/-- C1 (amended): dry-run issues no PUT and no MKCOL, and its success
count equals the number of files `should_upload_file` selects; when
every real upload succeeds, that is exactly what execute mode actually
transfers. -/
theorem C1_dry_run_no_writes (probe : String → Option RemoteInfo)
    (uploadOk : String → Bool) (t : LTree) (rp : String) :
    (upload_directory_recursive probe uploadOk t rp false).puts = [] ∧
    (upload_directory_recursive probe uploadOk t rp false).mkcols = [] ∧
    (upload_directory_recursive probe uploadOk t rp false).success =
      wouldUploadCount probe t rp ∧
    ((∀ p, uploadOk p = true) →
      (upload_directory_recursive probe uploadOk t rp false).success =
        (upload_directory_recursive probe uploadOk t rp true).success) := by
  have hdry := upload_tree_dry probe uploadOk t rp
  refine ⟨by rw [hdry], by rw [hdry], by rw [hdry]; rfl, ?_⟩
  intro hok
  have hexec := (upload_tree_exec probe uploadOk t rp).1
  rw [hdry, hexec]
  show countTreeBy (wouldPred probe) t rp =
    countTreeBy (transferPred probe uploadOk) t rp
  refine (countTreeBy_congr _ _ (fun f s => ?_) t rp).symm
  simp [transferPred, wouldPred, hok (s ++ "/" ++ f.name)]

/-- Witness for C1 (amended) at a concrete tree, probe and an
always-succeeding upload oracle. -/
theorem C1_dry_run_no_writes_witness :
    (upload_directory_recursive (fun _ => none) (fun _ => true)
        (.node [{ name := "x", size := 5, content := [] }] .nil)
        "/thetawave/media" false).puts = [] ∧
    (upload_directory_recursive (fun _ => none) (fun _ => true)
        (.node [{ name := "x", size := 5, content := [] }] .nil)
        "/thetawave/media" false).mkcols = [] ∧
    (upload_directory_recursive (fun _ => none) (fun _ => true)
        (.node [{ name := "x", size := 5, content := [] }] .nil)
        "/thetawave/media" false).success =
      wouldUploadCount (fun _ => none)
        (.node [{ name := "x", size := 5, content := [] }] .nil)
        "/thetawave/media" ∧
    (upload_directory_recursive (fun _ => none) (fun _ => true)
        (.node [{ name := "x", size := 5, content := [] }] .nil)
        "/thetawave/media" false).success =
      (upload_directory_recursive (fun _ => none) (fun _ => true)
        (.node [{ name := "x", size := 5, content := [] }] .nil)
        "/thetawave/media" true).success := by
  have h := C1_dry_run_no_writes (fun _ => none) (fun _ => true)
    (.node [{ name := "x", size := 5, content := [] }] .nil) "/thetawave/media"
  exact ⟨h.1, h.2.1, h.2.2.1, h.2.2.2 (fun _ => rfl)⟩

/-- C9: the download walker's success count never exceeds its total; the
upload walker's success plus skipped counts never exceed its total, with
equality in dry-run mode, while in execute mode the deficit is exactly
the number of files whose real upload failed. -/
theorem C9_walker_counters (downloadOk : String → Bool) (rt : RTree)
    (rrp : String) (probe : String → Option RemoteInfo)
    (uploadOk : String → Bool) (lt : LTree) (lrp : String) (execute : Bool) :
    (download_directory_recursive downloadOk rt rrp).success ≤
      (download_directory_recursive downloadOk rt rrp).total ∧
    (upload_directory_recursive probe uploadOk lt lrp execute).success +
        (upload_directory_recursive probe uploadOk lt lrp execute).skipped ≤
      (upload_directory_recursive probe uploadOk lt lrp execute).total ∧
    (upload_directory_recursive probe uploadOk lt lrp false).success +
        (upload_directory_recursive probe uploadOk lt lrp false).skipped =
      (upload_directory_recursive probe uploadOk lt lrp false).total ∧
    (upload_directory_recursive probe uploadOk lt lrp true).success +
        (upload_directory_recursive probe uploadOk lt lrp true).skipped +
        failedUploadCount probe uploadOk lt lrp =
      (upload_directory_recursive probe uploadOk lt lrp true).total := by
  have hdry := upload_tree_dry probe uploadOk lt lrp
  have hexec := upload_tree_exec probe uploadOk lt lrp
  have hws := countTreeBy_add _ _ _ (wouldPred_add_skipPred probe) lt lrp
  have htf := countTreeBy_add _ _ _ (transferPred_add_failPred probe uploadOk)
    lt lrp
  have hdry_eq : (upload_directory_recursive probe uploadOk lt lrp false).success +
      (upload_directory_recursive probe uploadOk lt lrp false).skipped =
      (upload_directory_recursive probe uploadOk lt lrp false).total := by
    rw [hdry]
    exact hws
  have hexec_eq : (upload_directory_recursive probe uploadOk lt lrp true).success +
      (upload_directory_recursive probe uploadOk lt lrp true).skipped +
      failedUploadCount probe uploadOk lt lrp =
      (upload_directory_recursive probe uploadOk lt lrp true).total := by
    rw [hexec.1, hexec.2.1, hexec.2.2]
    show countTreeBy (transferPred probe uploadOk) lt lrp +
      countTreeBy (skipPred probe) lt lrp +
      countTreeBy (failPred probe uploadOk) lt lrp =
      countTreeBy onePred lt lrp
    omega
  refine ⟨download_tree_le downloadOk rt rrp, ?_, hdry_eq, hexec_eq⟩
  cases execute
  · omega
  · omega

end PCloudSync
